import Mathlib

/-!
Verification of the Chatalia chat client's session/settings core.

This file shallowly embeds the state-manipulating logic of `src/App.tsx`,
`src/config.ts` and `src/components/ChatSettingsModal.tsx` as pure Lean
functions, and proves (or refutes) the specification's claims about them.

Modelling conventions:
* JS strings are Lean `String`s; the JS string operations used by the code
  (`trim`, `split(/\s+/)`, `substring`, `toLowerCase`, `join`) are
  re-implemented structurally over `String.data` so that the kernel can
  evaluate them (`jsTrim`, `jsSplitWs`, `jsSubstringTo`, `jsToLower',
  `joinSpace`).  `\s` is modelled by `Char.isWhitespace`; the claims only
  exercise ASCII whitespace, where the two agree.
* `Date` values are modelled as an abstract tick `now : Nat` threaded into
  every handler that calls `new Date()`.
* JS numbers that the code only ever stores and compares (temperature,
  topP) are modelled as `Rat`; the code performs no arithmetic on them.
* React `useState` setters are modelled by explicit state passing: each
  handler is a function from its inputs and the current state to the new
  state.  The single `AbortController` ref is modelled as an optional
  `Controller` value carrying, as ghost data, the id of the session the
  in-flight generation was started for, and an `aborted` flag set by
  `abort()`.
* The asynchronous backend call (`simulateAIResponse`) is modelled by a
  `BackendOutcome` parameter describing how the awaited promise settles:
  it resolves with text (possibly after the abort signal already fired —
  the `signal.aborted` re-check in `performAICall`), rejects with
  `AbortError`, or rejects with another error.  A promise settles exactly
  once, so one outcome per call.
-/

/-! ## JS string primitives -/

/-- `String.trim` of JS, implemented structurally on the character list. -/
def jsTrimChars (l : List Char) : List Char :=
  ((l.dropWhile Char.isWhitespace).reverse.dropWhile Char.isWhitespace).reverse

/-- JS `s.trim()`. -/
def jsTrim (s : String) : String := String.mk (jsTrimChars s.data)

/-- Worker for JS `s.split(/\s+/)`: walks the characters accumulating the
current token (reversed); a whitespace run ends the current token.  The
`inWs` flag records whether we are inside a whitespace run (so the run is
collapsed).  Matches the JS semantics including the leading/trailing empty
tokens produced when the string starts/ends with whitespace. -/
def jsSplitGo : List Char → List Char → Bool → List (List Char)
  | [], acc, _ => [acc.reverse]
  | c :: cs, acc, inWs =>
    if c.isWhitespace then
      if inWs then jsSplitGo cs acc true
      else acc.reverse :: jsSplitGo cs [] true
    else jsSplitGo cs (c :: acc) false

/-- JS `s.split(/\s+/)`. -/
def jsSplitWs (s : String) : List String :=
  (jsSplitGo s.data [] false).map String.mk

/-- JS `arr.join(" ")`. -/
def joinSpace : List String → String
  | [] => ""
  | [w] => w
  | w :: ws => w ++ " " ++ joinSpace ws

/-- JS `s.substring(0, n)` (the only form the code uses). -/
def jsSubstringTo (s : String) (n : Nat) : String := String.mk (s.data.take n)

/-- JS `s.length` (codepoint count; the strings involved are ASCII, where
this agrees with UTF-16 length). -/
def jsLength (s : String) : Nat := s.data.length

/-- JS `s.toLowerCase()` for the ASCII provider names of the model table. -/
def jsToLower' (s : String) : String := String.mk (s.data.map Char.toLower)

/-- JS `Array.prototype.findIndex`, returning `none` for the JS `-1`. -/
def jsFindIndex (p : α → Bool) : List α → Option Nat
  | [] => none
  | a :: l => if p a then some 0 else (jsFindIndex p l).map (· + 1)

/-! ## Data model (`src/types/chat.ts`, reconstructed from its uses) -/

/-- Message role: the loader coerces anything that is not `"user"` to
`"assistant"`. -/
inductive Role where
  | user
  | assistant
deriving DecidableEq

/-- `ChatMessage` of `types/chat.ts`.  `isError` is optional in TS and
defaulted to `false` by the loader; we store the default directly. -/
structure Message where
  id : String
  role : Role
  content : String
  timestamp : Nat
  isError : Bool
deriving DecidableEq

/-- `ChatSettings` of `types/chat.ts`: `model`, `temperature`,
`systemPrompt` always present (the defaults populate them), `maxTokens`
and `topP` optional. -/
structure ChatSettings where
  model : String
  temperature : Rat
  systemPrompt : String
  maxTokens : Option Nat
  topP : Option Rat
deriving DecidableEq

/-- `ChatSession` of `types/chat.ts`.  `settings` is the optional
per-session override (absent ⇒ the session follows global defaults). -/
structure ChatSession where
  id : String
  title : String
  messages : List Message
  createdAt : Nat
  lastModified : Nat
  settings : Option ChatSettings
deriving DecidableEq

/-- `ApiProviderConfig` of `types/chat.ts` (the fields the core reads). -/
structure ApiProviderConfig where
  id : String
  providerId : String
  name : String
  apiKey : String
  baseUrl : Option String
deriving DecidableEq

/-- `AppSettings` of `types/chat.ts`. -/
structure AppSettings where
  defaultChatSettings : ChatSettings
  apiProviders : List ApiProviderConfig
  sendWithEnter : Bool
  uiDensity : String
deriving DecidableEq

/-! ## `src/config.ts` -/

/-- One entry of a provider's `models` array in `MODEL_PROVIDERS`. -/
structure ModelInfo where
  id : String
  name : String
deriving DecidableEq

/-- A flattened model record as produced by `getAllModels` (model id,
display name, lowercased provider key). -/
structure ModelEntry where
  id : String
  name : String
  provider : String
deriving DecidableEq

/-- The static `MODEL_PROVIDERS` table of `config.ts`, as
(display name, models) pairs in source order. -/
def MODEL_PROVIDERS : List (String × List ModelInfo) :=
  [ ("OpenAI",
      [⟨"gpt-4o-mini", "GPT-4o mini"⟩, ⟨"gpt-4o", "GPT-4o"⟩,
       ⟨"gpt-4-turbo", "GPT-4 Turbo"⟩, ⟨"gpt-3.5-turbo", "GPT-3.5 Turbo"⟩]),
    ("Anthropic",
      [⟨"claude-3-opus-20240229", "Claude 3 Opus"⟩,
       ⟨"claude-3-sonnet-20240229", "Claude 3 Sonnet"⟩,
       ⟨"claude-3-haiku-20240307", "Claude 3 Haiku"⟩]),
    ("Groq",
      [⟨"llama3-8b-8192", "LLaMA3-8b"⟩, ⟨"llama3-70b-8192", "LLaMA3-70b"⟩,
       ⟨"mixtral-8x7b-32768", "Mixtral-8x7b"⟩, ⟨"gemma-7b-it", "Gemma-7b"⟩]) ]

/-- `getAllModels`: flatten the table, tagging each model with the
lowercased provider display name. -/
def getAllModels : List ModelEntry :=
  MODEL_PROVIDERS.flatMap fun p => p.2.map fun m => ⟨m.id, m.name, jsToLower' p.1⟩

/-- `findModelById`. -/
def findModelById (id : String) : Option ModelEntry :=
  getAllModels.find? fun m => m.id == id

/-- `getProviderForKey` (lowercases the provider name). -/
def getProviderForKey (providerName : String) : String := jsToLower' providerName

/-- `getProviderIdFromModel`: `undefined` when the model id is unknown. -/
def getProviderIdFromModel (modelId : String) : Option String :=
  (findModelById modelId).map fun m => getProviderForKey m.provider

/-- `DEFAULT_MODEL_ID`. -/
def DEFAULT_MODEL_ID : String := "gpt-4o-mini"

/-- `DEFAULT_CHAT_SETTINGS` (`temperature: 0.7`, no `maxTokens`/`topP`
keys). -/
def DEFAULT_CHAT_SETTINGS : ChatSettings :=
  { model := DEFAULT_MODEL_ID, temperature := mkRat 7 10, systemPrompt := ""
    maxTokens := none, topP := none }

/-- `DEFAULT_APP_SETTINGS`. -/
def DEFAULT_APP_SETTINGS : AppSettings :=
  { defaultChatSettings := DEFAULT_CHAT_SETTINGS, apiProviders := []
    sendWithEnter := true, uiDensity := "comfortable" }

/-! ## `src/App.tsx` — session mutation helpers -/

/-- `addMessageToActiveSession` (App.tsx:367): appends `message` to the
session whose id is `sessionId` and stamps its `lastModified`; the guard
`if (!sessionId) return;` drops the call for the empty (falsy) id, and the
`map` leaves every other session — and, when no session has that id, the
whole collection — unchanged. -/
def addMessageToActiveSession (message : Message) (sessionId : String) (now : Nat)
    (sessions : List ChatSession) : List ChatSession :=
  if sessionId = "" then sessions
  else sessions.map fun s =>
    if s.id = sessionId then
      { s with messages := s.messages ++ [message], lastModified := now }
    else s

/-- The title derivation inside `updateSessionTitleIfNeeded`
(App.tsx:389–395): join the first 5 `split(/\s+/)` words; if the join is
longer than 35 characters truncate to 32 and append `"..."`; an empty
result falls back to `"Chat"`. -/
def deriveTitle (firstMessageContent : String) : String :=
  let words := joinSpace ((jsSplitWs firstMessageContent).take 5)
  let newTitle := if jsLength words > 35 then jsSubstringTo words 32 ++ "..." else words
  if newTitle = "" then "Chat" else newTitle

/-- `updateSessionTitleIfNeeded` (App.tsx:384): retitles the session with
the given id only while its title is still the placeholder `"New Chat"`
(or empty/falsy). -/
def updateSessionTitleIfNeeded (sessionId firstMessageContent : String) (now : Nat)
    (sessions : List ChatSession) : List ChatSession :=
  sessions.map fun s =>
    if s.id = sessionId ∧ (s.title = "New Chat" ∨ s.title = "") then
      { s with title := deriveTitle firstMessageContent, lastModified := now }
    else s

/-! ## `src/App.tsx` — the generation call -/

/-- How the awaited `simulateAIResponse` promise settles, as observed by
`performAICall`.  `resolved text abortedAtResolution` is a successful
resolution, with the flag recording whether the abort signal had already
fired by the time the `await` returned (the `if (signal.aborted) return`
re-check); `abortError` is the rejection installed by the abort listener;
`failure` is any other rejection (e.g. the missing-key throw of the
simulated backend for an empty key). -/
inductive BackendOutcome where
  | resolved (text : String) (abortedAtResolution : Bool)
  | abortError
  | failure (errMsg : String)
deriving DecidableEq

/-- Credential resolution of `performAICall` (App.tsx:409–414):
`getProviderIdFromModel` maps the model to a provider key, the first
`apiProviders` entry with that `providerId` is taken, and the JS guard
`if (!apiKey)` fails both when no config matches (`undefined`) and when
the configured key is the empty string (falsy). -/
def resolveApiKey (appSettings : AppSettings) (settingsToUse : ChatSettings) :
    Option String :=
  let providerId := getProviderIdFromModel settingsToUse.model
  let apiProviderConfig :=
    match providerId with
    | some pid => appSettings.apiProviders.find? fun (p : ApiProviderConfig) => p.providerId == pid
    | none => none
  match apiProviderConfig with
  | some c => if c.apiKey = "" then none else some c.apiKey
  | none => none

/-- `performAICall` (App.tsx:405–433).  Returns the new session collection
together with the list of messages it appended (each append targets
`sessionForCall.id` via `addMessageToActiveSession`).  With no resolvable
api key the function toasts and `return`s before contacting the backend —
the outcome is never consulted and nothing is appended.  Otherwise: an
un-aborted resolution appends the assistant reply; a resolution arriving
after the abort signal appends nothing (`if (signal.aborted) return`); an
`AbortError` rejection appends the fixed `"Generation stopped."` error
message; any other rejection appends an `"Error: ..."` error message.
`msgId` stands for the freshly drawn `uuidv4()`. -/
def performAICall (appSettings : AppSettings) (prompt : String)
    (sessionForCall : ChatSession) (outcome : BackendOutcome)
    (msgId : String) (now : Nat) (sessions : List ChatSession) :
    List ChatSession × List Message :=
  let _ := prompt
  let settingsToUse := sessionForCall.settings.getD appSettings.defaultChatSettings
  match resolveApiKey appSettings settingsToUse with
  | none => (sessions, [])
  | some _ =>
    match outcome with
    | .resolved text abortedAtResolution =>
      if abortedAtResolution then (sessions, [])
      else
        let assistantMessage : Message :=
          { id := msgId, role := .assistant, content := text, timestamp := now
            isError := false }
        (addMessageToActiveSession assistantMessage sessionForCall.id now sessions,
         [assistantMessage])
    | .abortError =>
      let stopMessage : Message :=
        { id := msgId, role := .assistant, content := "Generation stopped."
          timestamp := now, isError := true }
      (addMessageToActiveSession stopMessage sessionForCall.id now sessions,
       [stopMessage])
    | .failure errMsg =>
      let errorMessage : Message :=
        { id := msgId, role := .assistant, content := "Error: " ++ errMsg
          timestamp := now, isError := true }
      (addMessageToActiveSession errorMessage sessionForCall.id now sessions,
       [errorMessage])

/-! ## `src/App.tsx` — message editing -/

/-- `handleDeleteMessage` (App.tsx:588): drop the message with the given
id from the active session. -/
def handleDeleteMessage (activeSessionId : Option String) (messageId : String)
    (now : Nat) (sessions : List ChatSession) : List ChatSession :=
  match activeSessionId with
  | none => sessions
  | some aid =>
    sessions.map fun s =>
      if s.id = aid then
        { s with
          messages := s.messages.filter (fun m => m.id != messageId)
          lastModified := now }
      else s

/-- The edited message: content replaced, timestamp refreshed
(App.tsx:620). -/
def updMsg (trimmedContent : String) (now : Nat) (m : Message) : Message :=
  { m with content := trimmedContent, timestamp := now }

/-- The per-session body of the `setSessions` updater in `handleSaveEdit`
(App.tsx:616–626), for the session matching the active id: locate the
message (`findIndex`), decide `requiresRegeneration` (content changed,
`user` role, and not the last message), rewrite the message's content and
timestamp, truncate after it when regenerating (`updatedMessages.length =
msgIdx + 1`), and stamp `lastModified`.  Returns the updated session and
the `requiresRegeneration` flag. -/
def handleSaveEditSession (messageId trimmedContent : String) (now : Nat)
    (s : ChatSession) : ChatSession × Bool :=
  match jsFindIndex (fun m => m.id == messageId) s.messages with
  | none => (s, false)
  | some msgIdx =>
    match s.messages[msgIdx]? with
    | none => (s, false)
    | some originalMsg =>
      let requiresRegeneration : Bool :=
        !(originalMsg.content == trimmedContent) && originalMsg.role == Role.user
          && decide (msgIdx < s.messages.length - 1)
      let updatedMessages := s.messages.map fun m =>
        if m.id == messageId then updMsg trimmedContent now m else m
      let finalMessages :=
        if requiresRegeneration then updatedMessages.take (msgIdx + 1)
        else updatedMessages
      ({ s with messages := finalMessages, lastModified := now },
       requiresRegeneration)

/-- `handleSaveEdit` (App.tsx:611–635).  Returns the new session
collection and, when regeneration is required, the `(prompt, session)`
pair handed to `performAICall` — the prompt is the trimmed new content and
the session is `sessionAfterUpdate`, the post-update (truncated) snapshot.
Note the empty-trim branch: the source line `if (!trimmedContent) { /*
... delete logic ... */ return; }` contains only a comment where the
delete logic should be, so the state is returned unchanged. -/
def handleSaveEdit (activeSessionId : Option String) (messageId newContent : String)
    (now : Nat) (sessions : List ChatSession) :
    List ChatSession × Option (String × ChatSession) :=
  match activeSessionId with
  | none => (sessions, none)
  | some aid =>
    let trimmedContent := jsTrim newContent
    if trimmedContent = "" then (sessions, none)
    else
      let newSessions := sessions.map fun s =>
        if s.id = aid then (handleSaveEditSession messageId trimmedContent now s).1
        else s
      let regen : Option (String × ChatSession) :=
        match sessions.find? (fun s => s.id == aid) with
        | some s =>
          let r := handleSaveEditSession messageId trimmedContent now s
          if r.2 then some (trimmedContent, r.1) else none
        | none => none
      (newSessions, regen)

/-! ## `src/App.tsx` — selection, deletion, and the abort controller -/

/-- The ghost view of `abortControllerRef.current`: present while a
controller exists, remembering which session the generation it guards was
started for (the `sessionForCall` captured by `performAICall`) and whether
`abort()` has been signalled. -/
structure Controller where
  boundSessionId : String
  aborted : Bool
deriving DecidableEq

/-- The slice of App component state the selection/deletion handlers
touch. -/
structure AppState where
  sessions : List ChatSession
  activeSessionId : Option String
  isLoading : Bool
  controller : Option Controller
  input : String
  editingMessageId : Option String
deriving DecidableEq

/-- `handleSelectChat` (App.tsx:528–539): whenever a load is in progress
and a controller exists it is aborted — with no regard to which session
the generation is bound to — and `isLoading` is cleared; then the clicked
session becomes active and the input/editing state is reset. -/
def handleSelectChat (id : String) (st : AppState) : AppState :=
  let st1 :=
    if st.isLoading && st.controller.isSome then
      { st with
        controller := st.controller.map (fun c => { c with aborted := true })
        isLoading := false }
    else st
  { st1 with activeSessionId := some id, input := "", editingMessageId := none }

/-- The confirmed branch of `handleDeleteChat` (App.tsx:545–556) — the
callback `openConfirmation` registers, run only after the user confirms
the deletion: filter the session out; if it was the active one, clear the
selection and abort any in-flight generation. -/
def handleDeleteChatConfirmed (id : String) (st : AppState) : AppState :=
  let updated := st.sessions.filter fun s => s.id != id
  if st.activeSessionId = some id then
    let st1 := { st with sessions := updated, activeSessionId := none }
    if st.isLoading && st.controller.isSome then
      { st1 with
        controller := st1.controller.map (fun c => { c with aborted := true })
        isLoading := false }
    else st1
  else { st with sessions := updated }

/-! ## `src/App.tsx` / `src/components/ChatSettingsModal.tsx` — settings -/

/-- `isUsingDefaultSettings` (App.tsx:141): `!activeSession?.settings`. -/
def isUsingDefaultSettings (activeSession : Option ChatSession) : Bool :=
  match activeSession with
  | some s => s.settings.isNone
  | none => true

/-- `handleSaveChatSettings` (App.tsx:637): install `newSettings` as the
session's override. -/
def handleSaveChatSettings (chatId : String) (newSettings : ChatSettings)
    (now : Nat) (sessions : List ChatSession) : List ChatSession :=
  sessions.map fun s =>
    if s.id = chatId then { s with settings := some newSettings, lastModified := now }
    else s

/-- `handleResetChatSettings` (App.tsx:650): remove the session's
override. -/
def handleResetChatSettings (chatId : String) (now : Nat)
    (sessions : List ChatSession) : List ChatSession :=
  sessions.map fun s =>
    if s.id = chatId then { s with settings := none, lastModified := now }
    else s

/-- `handleSaveChanges` of the chat-settings modal
(ChatSettingsModal.tsx:89–106) composed with the App callbacks it invokes.
The modal compares the edited settings against the static
`DEFAULT_CHAT_SETTINGS` constant (via `JSON.stringify`, modelled as value
equality of the settings record): unequal ⇒ `onSave` persists them as the
session override; equal and the session currently has an override ⇒
`handleReset`/`onResetToDefaults` removes the override; equal and already
on defaults ⇒ no state change (a toast only).  `isUsingDefaultSettings` is
the flag App computes for the modal's session. -/
def handleSaveChanges (chatId : Option String) (tempSettings : ChatSettings)
    (isUsingDefaults : Bool) (now : Nat) (sessions : List ChatSession) :
    List ChatSession :=
  match chatId with
  | none => sessions
  | some cid =>
    if tempSettings ≠ DEFAULT_CHAT_SETTINGS then
      handleSaveChatSettings cid tempSettings now sessions
    else if !isUsingDefaults then
      handleResetChatSettings cid now sessions
    else sessions

/-! ## Example values used by witnesses and counterexamples -/

/-- An empty session with id `"A"` and no settings override. -/
def exSessionA : ChatSession :=
  { id := "A", title := "T", messages := [], createdAt := 0, lastModified := 0
    settings := none }

/-- First user message of the four-message example session. -/
def exMsgU1 : Message :=
  { id := "u1", role := .user, content := "q1", timestamp := 0, isError := false }

/-- First assistant message of the four-message example session. -/
def exMsgA1 : Message :=
  { id := "a1", role := .assistant, content := "r1", timestamp := 1, isError := false }

/-- Second user message of the four-message example session. -/
def exMsgU2 : Message :=
  { id := "u2", role := .user, content := "q2", timestamp := 2, isError := false }

/-- Second assistant message of the four-message example session. -/
def exMsgA2 : Message :=
  { id := "a2", role := .assistant, content := "r2", timestamp := 3, isError := false }

/-- A session with id `"B"` holding user/assistant/user/assistant. -/
def exSessB : ChatSession :=
  { id := "B", title := "T", messages := [exMsgU1, exMsgA1, exMsgU2, exMsgA2]
    createdAt := 0, lastModified := 3, settings := none }

/-- A freshly created session still carrying the placeholder title. -/
def exNewChat : ChatSession :=
  { id := "N", title := "New Chat", messages := [], createdAt := 0
    lastModified := 0, settings := none }

/-- App settings with a configured OpenAI credential. -/
def exCredApp : AppSettings :=
  { DEFAULT_APP_SETTINGS with
    apiProviders := [{ id := "p1", providerId := "openai", name := "OpenAI"
                       apiKey := "sk-test", baseUrl := none }] }

/-- Chat settings differing from the built-in defaults only in the model
(a value a user could set as their new global default). -/
def exNewDefaults : ChatSettings :=
  { model := "gpt-4o", temperature := mkRat 7 10, systemPrompt := ""
    maxTokens := none, topP := none }

/-- App settings whose global default chat settings were changed by the
user to `exNewDefaults`. -/
def exUserDefaultsApp : AppSettings :=
  { DEFAULT_APP_SETTINGS with defaultChatSettings := exNewDefaults }

/-- App state with session `"A"` active and a generation in flight that
was started for session `"A"`. -/
def exLoadingState : AppState :=
  { sessions := [exSessionA], activeSessionId := some "A", isLoading := true
    controller := some { boundSessionId := "A", aborted := false }
    input := "x", editingMessageId := none }

/-! ## Helper lemmas -/

theorem string_data_append (s t : String) : (s ++ t).data = s.data ++ t.data := by
  cases s; cases t; rfl

theorem jsLength_append (s t : String) : jsLength (s ++ t) = jsLength s + jsLength t := by
  simp [jsLength, string_data_append]

theorem find_map_id_preserving (f : ChatSession → ChatSession)
    (hf : ∀ t, (f t).id = t.id) (aid : String) :
    ∀ l : List ChatSession,
      (l.map f).find? (fun t => t.id == aid) = (l.find? (fun t => t.id == aid)).map f := by
  intro l
  induction l with
  | nil => rfl
  | cons a l ih =>
    simp only [List.map_cons, List.find?]
    rw [hf a]
    cases h : (a.id == aid) <;> simp [h, ih]

theorem jsFindIndex_get {α : Type} {p : α → Bool} :
    ∀ {l : List α} {i : Nat}, jsFindIndex p l = some i →
      ∀ {a : α}, l[i]? = some a → p a = true := by
  intro l
  induction l with
  | nil => intro i h; simp [jsFindIndex] at h
  | cons b l ih =>
    intro i h a hget
    by_cases hb : p b = true
    · simp [jsFindIndex, hb] at h
      subst h
      simp at hget
      subst hget
      exact hb
    · simp [jsFindIndex, hb] at h
      obtain ⟨j, hj, rfl⟩ := h
      simp at hget
      exact ih hj hget

theorem take_map_upd {α : Type} {p : α → Bool} {f : α → α} :
    ∀ {l : List α} {i : Nat} {a : α},
      jsFindIndex p l = some i → l[i]? = some a →
      ((l.map fun m => if p m then f m else m).take (i + 1)) = l.take i ++ [f a] := by
  intro l
  induction l with
  | nil => intro i a h; simp [jsFindIndex] at h
  | cons b l ih =>
    intro i a h hget
    by_cases hb : p b = true
    · simp [jsFindIndex, hb] at h
      subst h
      simp at hget
      subst hget
      simp [List.map_cons, List.take, hb]
    · simp [jsFindIndex, hb] at h
      obtain ⟨j, hj, rfl⟩ := h
      simp at hget
      simp [List.map_cons, List.take, hb, ih hj hget]

theorem map_upd_of_last {α : Type} {p : α → Bool} {f : α → α}
    {l : List α} {i : Nat} {a : α}
    (h1 : jsFindIndex p l = some i) (h2 : l[i]? = some a)
    (h3 : i + 1 = l.length) :
    (l.map fun m => if p m then f m else m) = l.take i ++ [f a] := by
  have hlen : (l.map fun m => if p m then f m else m).length = i + 1 := by
    simp [List.length_map, ← h3]
  calc (l.map fun m => if p m then f m else m)
      = (l.map fun m => if p m then f m else m).take (i + 1) := by
        rw [← hlen, List.take_length]
    _ = l.take i ++ [f a] := take_map_upd h1 h2

theorem handleSaveEditSession_id (messageId trimmedContent : String) (now : Nat)
    (s : ChatSession) :
    (handleSaveEditSession messageId trimmedContent now s).1.id = s.id := by
  cases h1 : jsFindIndex (fun m => m.id == messageId) s.messages with
  | none => simp [handleSaveEditSession, h1]
  | some i =>
    cases h2 : s.messages[i]? with
    | none => simp [handleSaveEditSession, h1, h2]
    | some m => simp [handleSaveEditSession, h1, h2]

theorem handleSaveEditSession_spec (messageId trimmedContent : String) (now : Nat)
    (s : ChatSession) (i : Nat) (msg : Message)
    (hidx : jsFindIndex (fun m => m.id == messageId) s.messages = some i)
    (hget : s.messages[i]? = some msg) :
    handleSaveEditSession messageId trimmedContent now s
      = (let req := !(msg.content == trimmedContent) && msg.role == Role.user
                      && decide (i < s.messages.length - 1)
         let updated := s.messages.map fun m =>
           if m.id == messageId then updMsg trimmedContent now m else m
         ({ s with messages := if req then updated.take (i + 1) else updated
                   lastModified := now }, req)) := by
  simp only [handleSaveEditSession, hidx, hget]

theorem map_if_id {α : Type} {q : α → Prop} [DecidablePred q] {f : α → α} :
    ∀ (l : List α), (∀ s ∈ l, ¬ q s) →
      (l.map fun s => if q s then f s else s) = l := by
  intro l
  induction l with
  | nil => intro _; rfl
  | cons a t ih =>
    intro h
    have ha : ¬ q a := h a (by simp)
    simp only [List.map_cons, if_neg ha]
    rw [ih fun s hs => h s (by simp [hs])]

/-- The fixed stopped-status message `performAICall` appends on an
`AbortError` (App.tsx:429). -/
def stoppedMessage (msgId : String) (now : Nat) : Message :=
  { id := msgId, role := .assistant, content := "Generation stopped."
    timestamp := now, isError := true }

/-! ## Claims -/

/-- Claim C10 (confirmed): `addMessageToActiveSession` targets the session
by id; when no session in the collection carries the target id (e.g. the
session was deleted while the generation was in flight) the collection is
returned unchanged — the message is silently dropped, no session is
created or modified, and (the function being total) no error is raised. -/
theorem claim_C10 (message : Message) (sessionId : String) (now : Nat)
    (sessions : List ChatSession)
    (h : ∀ s ∈ sessions, s.id ≠ sessionId) :
    addMessageToActiveSession message sessionId now sessions = sessions := by
  unfold addMessageToActiveSession
  by_cases he : sessionId = ""
  · rw [if_pos he]
  · rw [if_neg he]
    exact map_if_id sessions h

/-- Witness for C10: appending to the absent id `"ghost"` leaves the
two-session collection untouched. -/
theorem claim_C10_witness :
    addMessageToActiveSession exMsgU1 "ghost" 9 [exSessionA, exSessB]
      = [exSessionA, exSessB] :=
  claim_C10 exMsgU1 "ghost" 9 [exSessionA, exSessB] (by decide)

/-- Counterexample to C1 as stated: with no configured provider no
credential resolves for the default model, and `performAICall` returns
with the sessions unchanged and with no appended message at all — only a
toast is raised — contradicting "an error message is appended to the
session" (and hence "never zero").  The backend-outcome argument is inert
in this branch (the backend is indeed never contacted): all three
outcomes produce the same empty result. -/
theorem claim_C1_counterexample :
    performAICall DEFAULT_APP_SETTINGS "hello" exSessionA .abortError "m1" 5 [exSessionA]
        = ([exSessionA], []) ∧
    performAICall DEFAULT_APP_SETTINGS "hello" exSessionA (.failure "e") "m1" 5 [exSessionA]
        = ([exSessionA], []) ∧
    performAICall DEFAULT_APP_SETTINGS "hello" exSessionA (.resolved "text" false) "m1" 5
        [exSessionA]
      = ([exSessionA], []) := by
  decide

/-- Claim C1 (corrected): `performAICall` appends *at most* one terminal
message.  When a credential resolves it appends exactly one message —
the assistant reply on an un-cancelled resolution, an `isError` message
on an aborted or failed call — except that a resolution arriving after
cancellation appends nothing; when no credential resolves it fails fast
before any backend call (the outcome is never consulted) but appends no
message, surfacing the configuration error only via the notification
channel. -/
theorem claim_C1_amended (appSettings : AppSettings) (prompt : String)
    (sessionForCall : ChatSession) (outcome : BackendOutcome)
    (msgId : String) (now : Nat) (sessions : List ChatSession) :
    (performAICall appSettings prompt sessionForCall outcome msgId now sessions).2.length ≤ 1 ∧
    (resolveApiKey appSettings (sessionForCall.settings.getD appSettings.defaultChatSettings)
        = none →
      performAICall appSettings prompt sessionForCall outcome msgId now sessions
        = (sessions, [])) ∧
    (resolveApiKey appSettings (sessionForCall.settings.getD appSettings.defaultChatSettings)
        ≠ none →
      ((outcome = .abortError ∨ (∃ e, outcome = .failure e)) →
        (performAICall appSettings prompt sessionForCall outcome msgId now sessions).2.length
            = 1 ∧
        ∀ m ∈ (performAICall appSettings prompt sessionForCall outcome msgId now sessions).2,
          m.isError = true ∧ m.role = .assistant) ∧
      (∀ text, outcome = .resolved text false →
        (performAICall appSettings prompt sessionForCall outcome msgId now sessions).2
          = [{ id := msgId, role := .assistant, content := text, timestamp := now
               isError := false }]) ∧
      (∀ text, outcome = .resolved text true →
        performAICall appSettings prompt sessionForCall outcome msgId now sessions
          = (sessions, []))) := by
  cases hk : resolveApiKey appSettings
      (sessionForCall.settings.getD appSettings.defaultChatSettings) with
  | none =>
    refine ⟨?_, fun _ => by simp [performAICall, hk], fun hne => absurd rfl hne⟩
    simp [performAICall, hk]
  | some k =>
    refine ⟨?_, fun h => by simp at h, fun _ => ⟨?_, ?_, ?_⟩⟩
    · cases outcome with
      | resolved text b => cases b <;> simp [performAICall, hk]
      | abortError => simp [performAICall, hk]
      | failure e => simp [performAICall, hk]
    · rintro (rfl | ⟨e, rfl⟩) <;> simp [performAICall, hk]
    · rintro text rfl
      simp [performAICall, hk]
    · rintro text rfl
      simp [performAICall, hk]

/-- Witness for C1 (amended): with a configured OpenAI key an aborted
call appends exactly one error-flagged assistant message. -/
theorem claim_C1_witness :
    (performAICall exCredApp "hi" exSessionA .abortError "m1" 5 [exSessionA]).2.length = 1 ∧
    ∀ m ∈ (performAICall exCredApp "hi" exSessionA .abortError "m1" 5 [exSessionA]).2,
      m.isError = true ∧ m.role = .assistant :=
  ((claim_C1_amended exCredApp "hi" exSessionA .abortError "m1" 5 [exSessionA]).2.2
    (by decide)).1 (Or.inl rfl)

/-- Claim C2 (confirmed): if a generation with a resolved credential is
cancelled before the backend call resolves (the promise rejects with
`AbortError`), exactly one assistant message with `isError = true` and the
fixed content `"Generation stopped."` is appended to the originating
session, and a backend resolution arriving after cancellation appends no
success message (the `signal.aborted` re-check returns first). -/
theorem claim_C2 (appSettings : AppSettings) (prompt msgId : String) (now : Nat)
    (sessions : List ChatSession) (sessionForCall t : ChatSession) (k : String)
    (hk : resolveApiKey appSettings (sessionForCall.settings.getD appSettings.defaultChatSettings)
            = some k)
    (hid : sessionForCall.id ≠ "")
    (ht : sessions.find? (fun u => u.id == sessionForCall.id) = some t) :
    (performAICall appSettings prompt sessionForCall .abortError msgId now sessions).2
        = [stoppedMessage msgId now] ∧
    (stoppedMessage msgId now).isError = true ∧
    (performAICall appSettings prompt sessionForCall .abortError msgId now sessions).1.find?
        (fun u => u.id == sessionForCall.id)
      = some { t with
                messages := t.messages ++ [stoppedMessage msgId now]
                lastModified := now } ∧
    (∀ text,
      performAICall appSettings prompt sessionForCall (.resolved text true) msgId now sessions
        = (sessions, [])) := by
  have hteq : t.id = sessionForCall.id := by
    have := List.find?_some ht
    simpa using this
  have hmap : (addMessageToActiveSession (stoppedMessage msgId now) sessionForCall.id now
        sessions).find? (fun u => u.id == sessionForCall.id)
      = some { t with
                messages := t.messages ++ [stoppedMessage msgId now]
                lastModified := now } := by
    unfold addMessageToActiveSession
    rw [if_neg hid]
    rw [find_map_id_preserving _
      (fun u => by by_cases h : u.id = sessionForCall.id <;> simp [h]) _ _]
    rw [ht]
    simp [hteq]
  refine ⟨by simp [performAICall, hk, stoppedMessage], rfl, ?_, fun text => by
    simp [performAICall, hk]⟩
  have hfst : (performAICall appSettings prompt sessionForCall .abortError msgId now
        sessions).1
      = addMessageToActiveSession (stoppedMessage msgId now) sessionForCall.id now sessions := by
    simp [performAICall, hk, stoppedMessage]
  rw [hfst]
  exact hmap

/-- Witness for C2: cancelling the example generation appends exactly the
stopped-status message, and a late resolution appends nothing. -/
theorem claim_C2_witness :
    (performAICall exCredApp "hi" exSessionA .abortError "m1" 5 [exSessionA]).2
        = [stoppedMessage "m1" 5] ∧
    performAICall exCredApp "hi" exSessionA (.resolved "late" true) "m1" 5 [exSessionA]
      = ([exSessionA], []) := by
  have h := claim_C2 exCredApp "hi" "m1" 5 [exSessionA] exSessionA exSessionA "sk-test"
    (by decide) (by decide) (by decide)
  exact ⟨h.1, h.2.2.2 "late"⟩

theorem handleSaveEdit_spec (aid messageId newContent : String) (now : Nat)
    (sessions : List ChatSession)
    (hne : jsTrim newContent ≠ "") :
    handleSaveEdit (some aid) messageId newContent now sessions
      = (sessions.map fun t =>
           if t.id = aid then (handleSaveEditSession messageId (jsTrim newContent) now t).1
           else t,
         match sessions.find? (fun t => t.id == aid) with
         | some t0 =>
           if (handleSaveEditSession messageId (jsTrim newContent) now t0).2 then
             some (jsTrim newContent,
               (handleSaveEditSession messageId (jsTrim newContent) now t0).1)
           else none
         | none => none) := by
  simp only [handleSaveEdit, if_neg hne]

theorem handleSaveEdit_find (aid messageId c : String) (now : Nat)
    (sessions : List ChatSession) (s : ChatSession)
    (hfind : sessions.find? (fun t => t.id == aid) = some s) :
    (sessions.map fun t =>
        if t.id = aid then (handleSaveEditSession messageId c now t).1 else t).find?
      (fun t => t.id == aid)
      = some (handleSaveEditSession messageId c now s).1 := by
  rw [find_map_id_preserving _ (fun t => by
    by_cases h : t.id = aid
    · simp [h, handleSaveEditSession_id]
    · simp [h]) _ _]
  rw [hfind]
  have hseq : s.id = aid := by simpa using List.find?_some hfind
  simp [hseq]

/-- Claim C3 (confirmed): a saved edit of a `user` message whose trimmed
content differs from the original either (a) — when the message is not the
last of the session — truncates the session's messages to end at the
edited message inclusive (with its new content) and triggers exactly one
regeneration whose prompt is the new trimmed content and whose session
snapshot is the post-truncation session, or (b) — when the message is the
last — rewrites just that message's content (refreshing its timestamp, as
every mutation does) and triggers no regeneration. -/
theorem claim_C3 (aid messageId newContent : String) (now : Nat)
    (sessions : List ChatSession) (s : ChatSession) (i : Nat) (msg : Message)
    (hfind : sessions.find? (fun t => t.id == aid) = some s)
    (hidx : jsFindIndex (fun m => m.id == messageId) s.messages = some i)
    (hget : s.messages[i]? = some msg)
    (hrole : msg.role = Role.user)
    (hchanged : msg.content ≠ jsTrim newContent)
    (hne : jsTrim newContent ≠ "") :
    (i < s.messages.length - 1 →
      (handleSaveEdit (some aid) messageId newContent now sessions).2
        = some (jsTrim newContent,
            { s with
              messages := s.messages.take i ++ [updMsg (jsTrim newContent) now msg]
              lastModified := now }) ∧
      (handleSaveEdit (some aid) messageId newContent now sessions).1.find?
          (fun t => t.id == aid)
        = some { s with
              messages := s.messages.take i ++ [updMsg (jsTrim newContent) now msg]
              lastModified := now }) ∧
    (i + 1 = s.messages.length →
      (handleSaveEdit (some aid) messageId newContent now sessions).2 = none ∧
      (handleSaveEdit (some aid) messageId newContent now sessions).1.find?
          (fun t => t.id == aid)
        = some { s with
              messages := s.messages.take i ++ [updMsg (jsTrim newContent) now msg]
              lastModified := now }) := by
  have hspec := handleSaveEditSession_spec messageId (jsTrim newContent) now s i msg hidx hget
  have hES := handleSaveEdit_spec aid messageId newContent now sessions hne
  have hfindE := handleSaveEdit_find aid messageId (jsTrim newContent) now sessions s hfind
  constructor
  · intro hlt
    have hreq : (!(msg.content == jsTrim newContent) && msg.role == Role.user
        && decide (i < s.messages.length - 1)) = true := by
      simp [hrole, hchanged, hlt]
    have h1 : handleSaveEditSession messageId (jsTrim newContent) now s
        = ({ s with
              messages := s.messages.take i ++ [updMsg (jsTrim newContent) now msg]
              lastModified := now }, true) := by
      rw [hspec]
      simp only [hreq, if_true]
      rw [take_map_upd hidx hget]
    constructor
    · rw [hES]
      simp only [hfind, h1]
      simp
    · rw [hES]
      simp only []
      rw [hfindE, h1]
  · intro hlast
    have hni : ¬ (i < s.messages.length - 1) := by omega
    have hreq : (!(msg.content == jsTrim newContent) && msg.role == Role.user
        && decide (i < s.messages.length - 1)) = false := by
      simp [hni]
    have h1 : handleSaveEditSession messageId (jsTrim newContent) now s
        = ({ s with
              messages := s.messages.take i ++ [updMsg (jsTrim newContent) now msg]
              lastModified := now }, false) := by
      rw [hspec]
      simp only [hreq]
      rw [map_upd_of_last hidx hget hlast]
      simp
    constructor
    · rw [hES]
      simp only [hfind, h1]
      simp
    · rw [hES]
      simp only []
      rw [hfindE, h1]

/-- Witness for C3: in the four-message session, editing the first user
message (not the last message) truncates the session to just that message
with the new trimmed content and requests one regeneration with that
prompt and the post-truncation snapshot. -/
theorem claim_C3_witness :
    (handleSaveEdit (some "B") "u1" " new q " 9 [exSessB]).2
      = some (jsTrim " new q ",
          { exSessB with
            messages := exSessB.messages.take 0 ++ [updMsg (jsTrim " new q ") 9 exMsgU1]
            lastModified := 9 }) ∧
    (handleSaveEdit (some "B") "u1" " new q " 9 [exSessB]).1.find?
        (fun t => t.id == "B")
      = some { exSessB with
            messages := exSessB.messages.take 0 ++ [updMsg (jsTrim " new q ") 9 exMsgU1]
            lastModified := 9 } :=
  (claim_C3 "B" "u1" " new q " 9 [exSessB] exSessB 0 exMsgU1 (by decide) (by decide)
    (by decide) (by decide) (by decide) (by decide)).1 (by decide)

/-- Claim C5 (code bug): the spec says an edit whose trimmed content is
empty is delegated to message deletion, but in the source the branch
`if (!trimmedContent) { /* ... delete logic ... */ return; }` holds only a
comment where the delete call should be (`handleDeleteMessage` is even
listed in the callback's dependency array but never invoked): the edit is
a complete no-op — the message survives unchanged — while
`handleDeleteMessage` on the same input would have removed it. -/
theorem claim_C5 :
    handleSaveEdit (some "B") "u1" "   " 9 [exSessB] = ([exSessB], none) ∧
    exMsgU1 ∈ exSessB.messages ∧
    handleDeleteMessage (some "B") "u1" 9 [exSessB]
      = [{ exSessB with messages := [exMsgA1, exMsgU2, exMsgA2], lastModified := 9 }] := by
  decide

/-- Counterexample to C6 as stated: saving an edit of the assistant
message `a1` rewrites its content to the new trimmed text — the claim's
"the message's content is not changed" is false (no regeneration is
triggered, though). -/
theorem claim_C6_counterexample :
    (handleSaveEdit (some "B") "a1" "hacked" 9 [exSessB]).1
      = [{ exSessB with
            messages := [exMsgU1, { exMsgA1 with content := "hacked", timestamp := 9 },
                         exMsgU2, exMsgA2]
            lastModified := 9 }] ∧
    exMsgA1.role = Role.assistant ∧
    exMsgA1.content ≠ "hacked" := by
  decide

/-- Claim C6 (corrected): a saved edit of an assistant-role message never
triggers regeneration and never truncates the session — but it is not a
full no-op: the message's content is rewritten to the trimmed new content
(and its timestamp refreshed) exactly as for a user message; only the UI
layer prevents this path. -/
theorem claim_C6_amended (aid messageId newContent : String) (now : Nat)
    (sessions : List ChatSession) (s : ChatSession) (i : Nat) (msg : Message)
    (hfind : sessions.find? (fun t => t.id == aid) = some s)
    (hidx : jsFindIndex (fun m => m.id == messageId) s.messages = some i)
    (hget : s.messages[i]? = some msg)
    (hrole : msg.role = Role.assistant)
    (hne : jsTrim newContent ≠ "") :
    (handleSaveEdit (some aid) messageId newContent now sessions).2 = none ∧
    (handleSaveEdit (some aid) messageId newContent now sessions).1.find?
        (fun t => t.id == aid)
      = some { s with
          messages := s.messages.map fun m =>
            if m.id == messageId then updMsg (jsTrim newContent) now m else m
          lastModified := now } ∧
    (s.messages.map fun m =>
        if m.id == messageId then updMsg (jsTrim newContent) now m else m)[i]?
      = some (updMsg (jsTrim newContent) now msg) := by
  have hspec := handleSaveEditSession_spec messageId (jsTrim newContent) now s i msg hidx hget
  have hES := handleSaveEdit_spec aid messageId newContent now sessions hne
  have hfindE := handleSaveEdit_find aid messageId (jsTrim newContent) now sessions s hfind
  have hau : (Role.assistant == Role.user) = false := by decide
  have hreq : (!(msg.content == jsTrim newContent) && msg.role == Role.user
      && decide (i < s.messages.length - 1)) = false := by
    simp [hrole, hau]
  have h1 : handleSaveEditSession messageId (jsTrim newContent) now s
      = ({ s with
            messages := s.messages.map fun m =>
              if m.id == messageId then updMsg (jsTrim newContent) now m else m
            lastModified := now }, false) := by
    rw [hspec]
    simp only [hreq]
    simp
  refine ⟨?_, ?_, ?_⟩
  · rw [hES]
    simp only [hfind, h1]
    simp
  · rw [hES]
    simp only []
    rw [hfindE, h1]
  · have hmem : (msg.id == messageId) = true := jsFindIndex_get hidx hget
    simp [List.getElem?_map, hget, hmem]
    intro h
    exact absurd (eq_of_beq hmem) h

/-- Witness for C6 (amended): editing the assistant message `a1` of the
example session triggers no regeneration. -/
theorem claim_C6_witness :
    (handleSaveEdit (some "B") "a1" "x2" 9 [exSessB]).2 = none :=
  (claim_C6_amended "B" "a1" "x2" 9 [exSessB] exSessB 1 exMsgA1 (by decide) (by decide)
    (by decide) (by decide) (by decide)).1

/-- A session carrying `exNewDefaults` as its settings override. -/
def exOverrideSession : ChatSession := { exSessionA with settings := some exNewDefaults }

/-- Counterexample to C4 as stated: the modal compares the edited settings
against the *static* `DEFAULT_CHAT_SETTINGS` constant, not against the
current global defaults.  With the user's global defaults changed to
`exNewDefaults` (model `gpt-4o`), saving an override value-equal to those
current defaults is persisted as an override and the session reports
`isUsingDefaults = false` afterwards. -/
theorem claim_C4_counterexample :
    exUserDefaultsApp.defaultChatSettings = exNewDefaults ∧
    isUsingDefaultSettings (some exSessionA) = true ∧
    handleSaveChanges (some "A") exNewDefaults true 9 [exSessionA]
      = [{ exSessionA with settings := some exNewDefaults, lastModified := 9 }] ∧
    isUsingDefaultSettings
        ((handleSaveChanges (some "A") exNewDefaults true 9 [exSessionA]).find?
          (fun t => t.id == "A"))
      = false := by
  decide

/-- Claim C4 (corrected): saving a settings override that is value-equal
to the *built-in* `DEFAULT_CHAT_SETTINGS` constant is treated as removing
the override (reset when one exists, no-op when already on defaults), so
the session reports `isUsingDefaults = true` afterwards and the value is
never persisted; equality against the current — possibly user-modified —
global defaults is not what the code checks. -/
theorem claim_C4_amended (cid : String) (sessions : List ChatSession) (now : Nat)
    (tempSettings : ChatSettings) (s : ChatSession)
    (htemp : tempSettings = DEFAULT_CHAT_SETTINGS)
    (hfind : sessions.find? (fun t => t.id == cid) = some s) :
    ∃ s', (handleSaveChanges (some cid) tempSettings (isUsingDefaultSettings (some s)) now
            sessions).find? (fun t => t.id == cid) = some s' ∧
      s'.settings = none ∧ isUsingDefaultSettings (some s') = true := by
  subst htemp
  have hseq : s.id = cid := by simpa using List.find?_some hfind
  cases hset : s.settings with
  | none =>
    have hflag : isUsingDefaultSettings (some s) = true := by
      simp [isUsingDefaultSettings, hset]
    have hrw : handleSaveChanges (some cid) DEFAULT_CHAT_SETTINGS
        (isUsingDefaultSettings (some s)) now sessions = sessions := by
      rw [hflag]
      simp [handleSaveChanges]
    rw [hrw]
    exact ⟨s, hfind, hset, hflag⟩
  | some ov =>
    have hflag : isUsingDefaultSettings (some s) = false := by
      simp [isUsingDefaultSettings, hset]
    have hrw : handleSaveChanges (some cid) DEFAULT_CHAT_SETTINGS
        (isUsingDefaultSettings (some s)) now sessions
        = handleResetChatSettings cid now sessions := by
      rw [hflag]
      simp [handleSaveChanges]
    rw [hrw]
    refine ⟨{ s with settings := none, lastModified := now }, ?_, rfl, by
      simp [isUsingDefaultSettings]⟩
    unfold handleResetChatSettings
    rw [find_map_id_preserving _ (fun t => by
      by_cases h : t.id = cid <;> simp [h]) _ _, hfind]
    simp [hseq]

/-- Witness for C4 (amended): resetting the override session via a save of
the built-in defaults leaves it reporting `isUsingDefaults = true`. -/
theorem claim_C4_witness :
    ∃ s', (handleSaveChanges (some "A") DEFAULT_CHAT_SETTINGS
            (isUsingDefaultSettings (some exOverrideSession)) 9 [exOverrideSession]).find?
          (fun t => t.id == "A") = some s' ∧
      s'.settings = none ∧ isUsingDefaultSettings (some s') = true :=
  claim_C4_amended "A" [exOverrideSession] 9 DEFAULT_CHAT_SETTINGS exOverrideSession rfl
    (by decide)

/-- Counterexample to C7 as stated: a generation is in flight for session
`"A"` (the bound id is recorded in the controller ghost state) and the
user selects that very session; `handleSelectChat` still aborts the
generation, contradicting "selecting the session the generation is bound
to never cancels it". -/
theorem claim_C7_counterexample :
    exLoadingState.activeSessionId = some "A" ∧
    exLoadingState.controller = some { boundSessionId := "A", aborted := false } ∧
    (handleSelectChat "A" exLoadingState).controller
      = some { boundSessionId := "A", aborted := true } := by
  decide

/-- Claim C7 (corrected): `handleSelectChat` cancels the in-flight
generation *unconditionally* whenever one is loading and a controller
exists — the selected id is never compared with the session the generation
is bound to, so even selecting that same session cancels it; when nothing
is loading (or no controller exists) selection cancels nothing. -/
theorem claim_C7_amended (id : String) (st : AppState) :
    (handleSelectChat id st).activeSessionId = some id ∧
    ((st.isLoading && st.controller.isSome) = true →
      (handleSelectChat id st).controller
        = st.controller.map (fun c => { c with aborted := true }) ∧
      (handleSelectChat id st).isLoading = false) ∧
    ((st.isLoading && st.controller.isSome) = false →
      (handleSelectChat id st).controller = st.controller ∧
      (handleSelectChat id st).isLoading = st.isLoading) := by
  unfold handleSelectChat
  by_cases h : (st.isLoading && st.controller.isSome) = true
  · rw [if_pos h]
    exact ⟨rfl, fun _ => ⟨rfl, rfl⟩, fun hf => by rw [h] at hf; cases hf⟩
  · rw [if_neg h]
    exact ⟨rfl, fun ht => absurd ht h, fun _ => ⟨rfl, rfl⟩⟩

/-- Witness for C7 (amended): selecting another session while loading
aborts the controller and clears the loading flag. -/
theorem claim_C7_witness :
    (handleSelectChat "Z" exLoadingState).controller
      = exLoadingState.controller.map (fun c => { c with aborted := true }) ∧
    (handleSelectChat "Z" exLoadingState).isLoading = false :=
  (claim_C7_amended "Z" exLoadingState).2.1 (by decide)

/-- Claim C8 (confirmed): deleting the active session (after the
confirmation callback fires) clears the selection and aborts any
in-flight generation — in particular one tied to that session — while
deleting a non-active session leaves the selection, the loading flag and
the controller untouched and removes exactly the sessions carrying the
given id (every other session survives). -/
theorem claim_C8 (id : String) (st : AppState) :
    (st.activeSessionId = some id →
      (handleDeleteChatConfirmed id st).activeSessionId = none ∧
      (handleDeleteChatConfirmed id st).sessions
        = st.sessions.filter (fun s => s.id != id) ∧
      ((st.isLoading && st.controller.isSome) = true →
        (handleDeleteChatConfirmed id st).controller
          = st.controller.map (fun c => { c with aborted := true }) ∧
        (handleDeleteChatConfirmed id st).isLoading = false)) ∧
    (st.activeSessionId ≠ some id →
      (handleDeleteChatConfirmed id st).activeSessionId = st.activeSessionId ∧
      (handleDeleteChatConfirmed id st).isLoading = st.isLoading ∧
      (handleDeleteChatConfirmed id st).controller = st.controller ∧
      (handleDeleteChatConfirmed id st).sessions
        = st.sessions.filter (fun s => s.id != id) ∧
      ∀ s ∈ st.sessions, s.id ≠ id → s ∈ (handleDeleteChatConfirmed id st).sessions) := by
  unfold handleDeleteChatConfirmed
  by_cases ha : st.activeSessionId = some id
  · rw [if_pos ha]
    by_cases hl : (st.isLoading && st.controller.isSome) = true
    · rw [if_pos hl]
      exact ⟨fun _ => ⟨rfl, rfl, fun _ => ⟨rfl, rfl⟩⟩, fun hn => absurd ha hn⟩
    · rw [if_neg hl]
      exact ⟨fun _ => ⟨rfl, rfl, fun h => absurd h hl⟩, fun hn => absurd ha hn⟩
  · rw [if_neg ha]
    refine ⟨fun h => absurd h ha, fun _ => ⟨rfl, rfl, rfl, rfl, ?_⟩⟩
    intro s hs hne
    simp [List.mem_filter, hs, hne]

/-- Witness for C8: deleting the active example session clears the
selection and aborts the in-flight generation. -/
theorem claim_C8_witness :
    (handleDeleteChatConfirmed "A" exLoadingState).activeSessionId = none ∧
    (handleDeleteChatConfirmed "A" exLoadingState).controller
      = exLoadingState.controller.map (fun c => { c with aborted := true }) := by
  have h := (claim_C8 "A" exLoadingState).1 (by decide)
  exact ⟨h.1, (h.2.2 (by decide)).1⟩

/-- Counterexample to C9 as stated: the first *five* whitespace-separated
words of `"Explain quantum computing in simple terms"` join to the
35-character string `"Explain quantum computing in simple"`, which is not
longer than 35 and is therefore kept whole — the claimed title
`"Explain quantum computing in"` (only four words) is wrong. -/
theorem claim_C9_counterexample :
    updateSessionTitleIfNeeded "N" "Explain quantum computing in simple terms" 9 [exNewChat]
      = [{ exNewChat with
            title := "Explain quantum computing in simple", lastModified := 9 }] ∧
    "Explain quantum computing in simple" ≠ "Explain quantum computing in" := by
  decide

/-- Claim C9 (corrected): the auto-title fires only while the title is
still the placeholder (`"New Chat"` or empty) — other sessions pass
through unchanged — and derives the title from the first 5 words of the
content; the result is never empty and never longer than 35 characters,
truncation to 32 characters plus the `"..."` marker happens only when the
joined words exceed 35 characters (a 33–35-character join is kept whole),
an empty derivation falls back to `"Chat"`, and the example input yields
`"Explain quantum computing in simple"` (five words, 35 characters), not
`"Explain quantum computing in"`. -/
theorem claim_C9_amended (sessionId content : String) (now : Nat)
    (sessions : List ChatSession) :
    ((∀ t ∈ sessions, t.id = sessionId → (t.title ≠ "New Chat" ∧ t.title ≠ "")) →
      updateSessionTitleIfNeeded sessionId content now sessions = sessions) ∧
    (∀ s ∈ sessions, s.id = sessionId → (s.title = "New Chat" ∨ s.title = "") →
      { s with title := deriveTitle content, lastModified := now }
        ∈ updateSessionTitleIfNeeded sessionId content now sessions) ∧
    deriveTitle content ≠ "" ∧
    jsLength (deriveTitle content) ≤ 35 ∧
    (35 < jsLength (joinSpace ((jsSplitWs content).take 5)) →
      deriveTitle content
        = jsSubstringTo (joinSpace ((jsSplitWs content).take 5)) 32 ++ "...") ∧
    (joinSpace ((jsSplitWs content).take 5) = "" → deriveTitle content = "Chat") ∧
    deriveTitle "Explain quantum computing in simple terms"
      = "Explain quantum computing in simple" := by
  have hsub : ∀ w : String, jsLength (jsSubstringTo w 32 ++ "...") ≤ 35 := by
    intro w
    rw [jsLength_append]
    have h1 : jsLength (jsSubstringTo w 32) ≤ 32 := by
      simp only [jsSubstringTo, jsLength, List.length_take]
      exact Nat.min_le_left _ _
    have h2 : jsLength "..." = 3 := by decide
    omega
  have hsubne : ∀ w : String, jsSubstringTo w 32 ++ "..." ≠ "" := by
    intro w h
    have hc := congrArg jsLength h
    rw [jsLength_append] at hc
    have h2 : jsLength "..." = 3 := by decide
    have h0 : jsLength "" = 0 := by decide
    omega
  refine ⟨?_, ?_, ?_, ?_, ?_, ?_, by decide⟩
  · intro hno
    unfold updateSessionTitleIfNeeded
    apply map_if_id
    intro s hs hq
    obtain ⟨hid, ht⟩ := hq
    rcases ht with h | h
    · exact absurd h (hno s hs hid).1
    · exact absurd h (hno s hs hid).2
  · intro s hs hid htitle
    unfold updateSessionTitleIfNeeded
    exact List.mem_map.mpr ⟨s, hs, by rw [if_pos ⟨hid, htitle⟩]⟩
  · unfold deriveTitle
    simp only []
    by_cases hgt : 35 < jsLength (joinSpace ((jsSplitWs content).take 5))
    · rw [if_pos hgt, if_neg (hsubne _)]
      exact hsubne _
    · rw [if_neg hgt]
      by_cases hz : joinSpace ((jsSplitWs content).take 5) = ""
      · rw [if_pos hz]
        decide
      · rw [if_neg hz]
        exact hz
  · unfold deriveTitle
    simp only []
    by_cases hgt : 35 < jsLength (joinSpace ((jsSplitWs content).take 5))
    · rw [if_pos hgt, if_neg (hsubne _)]
      exact hsub _
    · rw [if_neg hgt]
      by_cases hz : joinSpace ((jsSplitWs content).take 5) = ""
      · rw [if_pos hz]
        decide
      · rw [if_neg hz]
        omega
  · intro hgt
    unfold deriveTitle
    simp only []
    rw [if_pos hgt, if_neg (hsubne _)]
  · intro hz
    unfold deriveTitle
    simp only []
    rw [hz]
    decide

/-- Witness for C9 (amended): the placeholder-titled example session gets
the derived title. -/
theorem claim_C9_witness :
    { exNewChat with
      title := deriveTitle "Explain quantum computing in simple terms", lastModified := 9 }
      ∈ updateSessionTitleIfNeeded "N" "Explain quantum computing in simple terms" 9
          [exNewChat] :=
  (claim_C9_amended "N" "Explain quantum computing in simple terms" 9 [exNewChat]).2.1
    exNewChat (by simp) rfl (Or.inl rfl)
